import Mathlib

/-!
Shallow embedding of the MedMatch server (src/server/main.py and
src/server/database.py).

The server exposes two FastAPI endpoints built on a `llama_cpp` completion
capability `llm` (a process-global that is `None` when model loading failed):

* `POST /api/analyze-medical-text` (`analyze_medical_text`): checks `llm`,
  builds one extraction prompt embedding the request text, calls
  `llm(prompt, max_tokens=2000, temperature=0.1)`, parses the returned text
  with `json.loads`, and returns the parsed value unchanged.  Any exception
  in the try-block becomes `HTTPException(500, "Error processing text: ...")`.
* `POST /api/match-trials` (`match_trials`): checks `llm`, awaits
  `analyze_medical_text` (whose `HTTPException` propagates), builds a match
  prompt embedding `json.dumps(extracted_info)`, makes a second completion
  call with the same generation parameters, parses it with `json.loads`, and
  returns `{"extractedInfo": ..., "matchedTrials": ...}`.  Exceptions in its
  try-block become `HTTPException(500, "Error matching trials: ...")`.

The embedding models the completion capability as a function from a call
record (prompt, max_tokens, temperature) to `Except String String` (error =
a raised Python exception with its message, ok = the completion text taken
from `output.choices[0].text`), and `json.loads` as an explicit parameter of
type `String → Except String Json` so that every theorem holds for an
arbitrary parser.  Each handler also returns the list of completion calls it
issued and the list of database writes it performed; `main.py` never imports
`database.py` and contains no database operation, so the write list is `[]`
on every code path.  Python floats are modelled as `ℚ` and JSON numbers as
`ℤ`.
-/

set_option maxRecDepth 40000

namespace MedMatch

/-- JSON values, as produced by Python's `json.loads`.  Numbers are modelled
as integers (the scores the spec talks about are integral). -/
inductive Json where
  | null : Json
  | bool (b : Bool) : Json
  | num (n : Int) : Json
  | str (s : String) : Json
  | arr (elems : List Json) : Json
  | obj (fields : List (String × Json)) : Json

/-- Serialization of a JSON value, modelling Python's
`json.dumps(..., indent=2)` up to whitespace formatting (only the prompt
string content depends on it, and no claim inspects that content). -/
def Json.dumps : Json → String
  | .null => "null"
  | .bool true => "true"
  | .bool false => "false"
  | .num n => toString n
  | .str s => "\"" ++ s ++ "\""
  | .arr elems =>
      "[" ++ String.intercalate ", "
        (elems.attach.map fun e => Json.dumps e.1) ++ "]"
  | .obj fields =>
      "\x7b" ++ String.intercalate ", "
        (fields.attach.map fun f => "\"" ++ f.1.1 ++ "\": " ++ Json.dumps f.1.2) ++ "\x7d"
decreasing_by
  · have h := List.sizeOf_lt_of_mem e.2
    simp
    omega
  · have h := List.sizeOf_lt_of_mem f.2
    obtain ⟨⟨a, b⟩, hf⟩ := f
    simp at h ⊢
    omega

/-- Key lookup in a JSON object (top level only); `none` on non-objects. -/
def Json.lookup : Json → String → Option Json
  | .obj fields, k => List.lookup k fields
  | _, _ => none

/-- One invocation of the completion capability:
`llm(prompt, max_tokens=..., temperature=...)` in `main.py`. -/
structure LlmCall where
  prompt : String
  maxTokens : Nat
  temperature : ℚ
deriving DecidableEq

/-- The completion capability: from a call to either a raised exception
(with its message) or the completion text `output.choices[0].text`. -/
abbrev Llm := LlmCall → Except String String

/-- Python's `json.loads`, as an explicit parameter: either a raised
`JSONDecodeError` (with its message) or the parsed value. -/
abbrev JsonLoads := String → Except String Json

/-- A row of the `trial_matches` table from `src/server/database.py`
(`id` and `created_at`, which the database fills in, are omitted). -/
structure TrialMatch where
  patient_id : Int
  trial_id : Int
  match_score : ℚ
  match_reasons : Json
  limiting_factors : Json

/-- Observable side effects of one request: the completion calls issued and
the `TrialMatch` rows written.  `main.py` never imports `database.py` and
performs no database operation, so `dbWrites` is `[]` on every path. -/
structure Effects where
  llmCalls : List LlmCall
  dbWrites : List TrialMatch

/-- The `HTTPException`s raised by `main.py`.  All three carry status 500;
they differ in their `detail` message. -/
inductive ApiError where
  | notInitialized : ApiError
  | processingText (msg : String) : ApiError
  | matchingTrials (msg : String) : ApiError
deriving DecidableEq

/-- HTTP status of the raised `HTTPException`: `main.py` always uses 500. -/
def ApiError.statusCode : ApiError → Nat := fun _ => 500

/-- The `detail` string of the raised `HTTPException`. -/
def ApiError.detail : ApiError → String
  | .notInitialized => "Llama model not initialized"
  | .processingText msg => "Error processing text: " ++ msg
  | .matchingTrials msg => "Error matching trials: " ++ msg

/-- `true` exactly on the error raised from the matching-stage try-block. -/
def ApiError.isMatchingStage : ApiError → Bool
  | .matchingTrials _ => true
  | _ => false

/-- Text of the extraction prompt before the interpolated `info.text`. -/
def extractionPromptPre : String :=
  "\n    Extract medical information from this text and format as JSON:\n    "

/-- Text of the extraction prompt after the interpolated `info.text`:
the inline schema template the completion is instructed to fill. -/
def extractionPromptPost : String :=
  "\n    \n    Format the response as:\n    \x7b\n"
  ++ "        \"diagnosis\": \x7b\n"
  ++ "            \"primaryDiagnosis\": \"\",\n"
  ++ "            \"subtype\": \"\",\n"
  ++ "            \"diagnosisDate\": \"\",\n"
  ++ "            \"stage\": \"\"\n"
  ++ "        \x7d,\n"
  ++ "        \"treatments\": \x7b\n"
  ++ "            \"pastTreatments\": \"\",\n"
  ++ "            \"currentTreatment\": \"\",\n"
  ++ "            \"plannedTreatment\": \"\"\n"
  ++ "        \x7d,\n"
  ++ "        \"medicalHistory\": \x7b\n"
  ++ "            \"comorbidities\": \"\",\n"
  ++ "            \"allergies\": \"\",\n"
  ++ "            \"medications\": \"\"\n"
  ++ "        \x7d,\n"
  ++ "        \"demographics\": \x7b\n"
  ++ "            \"age\": \"\",\n"
  ++ "            \"gender\": \"\"\n"
  ++ "        \x7d\n    \x7d\n    "

/-- The extraction prompt: the f-string in `analyze_medical_text`, which
embeds `info.text` verbatim between the fixed pre/post parts. -/
def extraction_prompt (text : String) : String :=
  extractionPromptPre ++ text ++ extractionPromptPost

/-- The completion call made by `analyze_medical_text`:
`llm(prompt, max_tokens=2000, temperature=0.1)`. -/
def extractionCall (text : String) : LlmCall :=
  { prompt := extraction_prompt text, maxTokens := 2000, temperature := 1/10 }

/-- Text of the match prompt before the interpolated
`json.dumps(extracted_info, indent=2)`. -/
def matchPromptPre : String :=
  "\n    Given this patient information:\n    "

/-- Text of the match prompt after the interpolated profile. -/
def matchPromptPost : String :=
  "\n    \n    Match the patient to clinical trials and return a JSON response with:\n"
  ++ "    1. Match score (0-100)\n"
  ++ "    2. Matching reasons\n"
  ++ "    3. Limiting factors\n"
  ++ "    \n    Focus on:\n"
  ++ "    - Cancer type matches\n"
  ++ "    - Biomarker matches (especially KRAS G12C)\n"
  ++ "    - Stage compatibility\n"
  ++ "    - Age requirements\n"
  ++ "    - Performance status\n"
  ++ "    \n    Format the response as a list of matched trials.\n    "

/-- The match prompt: the f-string in `match_trials`, embedding the
serialized extracted profile. -/
def match_prompt (extracted : Json) : String :=
  matchPromptPre ++ extracted.dumps ++ matchPromptPost

/-- The second completion call made by `match_trials`: same generation
parameters as the extraction call. -/
def matchCall (extracted : Json) : LlmCall :=
  { prompt := match_prompt extracted, maxTokens := 2000, temperature := 1/10 }

/-- One try-block of `main.py`: call the completion capability, then parse
its text with `json.loads`; any exception is mapped by `tag` to the
stage-specific `HTTPException` detail. -/
def runStage (tag : String → ApiError) (jsonLoads : JsonLoads) (llm : Llm)
    (call : LlmCall) : Except ApiError Json :=
  match llm call with
  | .error e => .error (tag e)
  | .ok t =>
      match jsonLoads t with
      | .error e => .error (tag e)
      | .ok v => .ok v

/-- `analyze_medical_text` from `src/server/main.py`: if `llm` is `None`,
raise 500 "Llama model not initialized"; otherwise issue the extraction
completion call, parse its text with `json.loads`, and return the parsed
value unchanged; exceptions become 500 "Error processing text: ...". -/
def analyze_medical_text (jsonLoads : JsonLoads) (llm? : Option Llm)
    (text : String) : Except ApiError Json × Effects :=
  match llm? with
  | none => (.error .notInitialized, { llmCalls := [], dbWrites := [] })
  | some llm =>
      (runStage .processingText jsonLoads llm (extractionCall text),
       { llmCalls := [extractionCall text], dbWrites := [] })

/-- `match_trials` from `src/server/main.py`: if `llm` is `None`, raise 500
"Llama model not initialized"; otherwise await `analyze_medical_text`
(its `HTTPException` propagates, so on extraction failure the second
completion call is never issued); then issue the match completion call,
parse with `json.loads`, and return
`(extractedInfo, matchedTrials)`; exceptions in the second try-block become
500 "Error matching trials: ...". -/
def match_trials (jsonLoads : JsonLoads) (llm? : Option Llm)
    (text : String) : Except ApiError (Json × Json) × Effects :=
  match llm? with
  | none => (.error .notInitialized, { llmCalls := [], dbWrites := [] })
  | some llm =>
      match analyze_medical_text jsonLoads llm? text with
      | (.error e, eff) => (.error e, eff)
      | (.ok extracted, eff) =>
          match runStage .matchingTrials jsonLoads llm (matchCall extracted) with
          | .error e =>
              (.error e,
               { llmCalls := eff.llmCalls ++ [matchCall extracted],
                 dbWrites := eff.dbWrites })
          | .ok ms =>
              (.ok (extracted, ms),
               { llmCalls := eff.llmCalls ++ [matchCall extracted],
                 dbWrites := eff.dbWrites })

/-! ### Spec-side definitions

The following `spec…` definitions formalise properties the specification
asserts about the output (ranking policy, score range, profile shape).  They
follow the spec's words and are used to compare the code's actual behaviour
against the claimed behaviour; they are not part of the code. -/

/-- The score of one matched-trial entry, read from its `"score"` field
(0 when absent or non-numeric), as the spec's ranking policy presupposes. -/
def specScore (j : Json) : Int :=
  match j.lookup "score" with
  | some (.num n) => n
  | _ => 0

/-- The trial identifier of one matched-trial entry, read from its
`"trial"` field (empty when absent), used by the spec's tie-break rule. -/
def specTrialId (j : Json) : String :=
  match j.lookup "trial" with
  | some (.str s) => s
  | _ => ""

/-- Spec ranking order: `a` may precede `b` when `a`'s score is strictly
higher, or the scores tie and `a`'s trial identifier is not larger. -/
def specBefore (a b : Json) : Bool :=
  decide (specScore b < specScore a) ||
    (decide (specScore a = specScore b) && decide (specTrialId a ≤ specTrialId b))

/-- The spec's claimed ordering of match results: sorted by descending
score, ties broken by ascending trial identifier. -/
def specSortedByScoreDesc : List Json → Bool
  | [] => true
  | [_] => true
  | a :: b :: rest => specBefore a b && specSortedByScoreDesc (b :: rest)

/-- The spec's claimed score range for one matched-trial entry. -/
def specScoreInRange (j : Json) : Bool :=
  decide (0 ≤ specScore j) && decide (specScore j ≤ 100)

/-- The spec's claimed invariant: every score of the result list lies in
[0,100]. -/
def specAllScoresInRange (l : List Json) : Bool :=
  l.all specScoreInRange

/-- The elements of a JSON array (empty for non-arrays). -/
def jsonElems : Json → List Json
  | .arr xs => xs
  | _ => []

/-- `j` is an object carrying every key of `keys`. -/
def specHasKeys (j : Json) (keys : List String) : Bool :=
  keys.all fun k => (j.lookup k).isSome

/-- The spec's claimed PatientProfile shape: all four top-level sections
present, each with every declared key present. -/
def specWellShapedProfile (j : Json) : Bool :=
  specHasKeys j ["diagnosis", "treatments", "medicalHistory", "demographics"]
  && (match j.lookup "diagnosis" with
      | some d => specHasKeys d ["primaryDiagnosis", "subtype", "diagnosisDate", "stage"]
      | none => false)
  && (match j.lookup "treatments" with
      | some d => specHasKeys d ["pastTreatments", "currentTreatment", "plannedTreatment"]
      | none => false)
  && (match j.lookup "medicalHistory" with
      | some d => specHasKeys d ["comorbidities", "allergies", "medications"]
      | none => false)
  && (match j.lookup "demographics" with
      | some d => specHasKeys d ["age", "gender"]
      | none => false)

/-! ### Concrete capability stubs used by counterexamples and witnesses -/

/-- A completion capability that answers `"E"` to the extraction prompt for
request text `"pt"` and `"M"` to anything else (so to the match prompt). -/
def stubLlm : Llm := fun c =>
  if c.prompt = extraction_prompt "pt" then .ok "E" else .ok "M"

/-- A parser that parses `"E"` to `extractVal` and anything else
(so `"M"`) to `matchVal`. -/
def stubLoads (extractVal matchVal : Json) : JsonLoads := fun s =>
  if s = "E" then .ok extractVal else .ok matchVal

/-- A completion capability whose every call raises `"boom"`. -/
def failLlm : Llm := fun _ => .error "boom"

/-- A completion capability whose every call returns the text `t`. -/
def okLlm (t : String) : Llm := fun _ => .ok t

/-- A parser whose every call raises `"bad json"`. -/
def failLoads : JsonLoads := fun _ => .error "bad json"

/-- A parser whose every call returns the bare number `7`. -/
def numLoads : JsonLoads := fun _ => .ok (Json.num 7)

/-- The extracted profile used by the concrete match-stage runs. -/
def cProfile : Json := Json.obj []

/-- Two matched-trial entries emitted in ascending-score order: score 10
before score 90. -/
def cTrialsOutOfOrder : List Json :=
  [Json.obj [("trial", Json.str "B"), ("score", Json.num 10)],
   Json.obj [("trial", Json.str "A"), ("score", Json.num 90)]]

/-- One matched-trial entry whose score 150 lies outside [0,100]. -/
def cBadScoreTrials : List Json :=
  [Json.obj [("trial", Json.str "A"), ("score", Json.num 150)]]

/-- One in-range matched-trial entry. -/
def cOneTrial : List Json :=
  [Json.obj [("trial", Json.str "A"), ("score", Json.num 55)]]

/-- A parsed completion value that is not a well-shaped profile: only a
`diagnosis` section, itself missing every declared key. -/
def partialProfile : Json := Json.obj [("diagnosis", Json.obj [])]

/-- A parser whose every call returns `partialProfile`. -/
def partialLoads : JsonLoads := fun _ => .ok partialProfile

/-! ### Helper lemmas about the handlers -/

lemma runStage_llm_error (tag : String → ApiError) (jsonLoads : JsonLoads)
    (llm : Llm) (call : LlmCall) (m : String) (h : llm call = .error m) :
    runStage tag jsonLoads llm call = .error (tag m) := by
  unfold runStage
  rw [h]

lemma runStage_ok (tag : String → ApiError) (jsonLoads : JsonLoads)
    (llm : Llm) (call : LlmCall) (t : String) (v : Json)
    (h1 : llm call = .ok t) (h2 : jsonLoads t = .ok v) :
    runStage tag jsonLoads llm call = .ok v := by
  simp [runStage, h1, h2]

lemma runStage_error_range (tag : String → ApiError) (jsonLoads : JsonLoads)
    (llm : Llm) (call : LlmCall) (er : ApiError)
    (h : runStage tag jsonLoads llm call = .error er) : ∃ m, er = tag m := by
  rcases h1 : llm call with m | t
  · rw [runStage_llm_error tag jsonLoads llm call m h1] at h
    exact ⟨m, (Except.error.inj h).symm⟩
  · rcases h2 : jsonLoads t with m | v
    · simp [runStage, h1, h2] at h
      exact ⟨m, h.symm⟩
    · rw [runStage_ok tag jsonLoads llm call t v h1 h2] at h
      exact absurd h (by simp)

lemma runStage_eq_ok (tag : String → ApiError) (jsonLoads : JsonLoads)
    (llm : Llm) (call : LlmCall) (v : Json)
    (h : runStage tag jsonLoads llm call = .ok v) :
    ∃ t, llm call = .ok t ∧ jsonLoads t = .ok v := by
  rcases h1 : llm call with m | t
  · rw [runStage_llm_error tag jsonLoads llm call m h1] at h
    exact absurd h (by simp)
  · rcases h2 : jsonLoads t with m | w
    · simp [runStage, h1, h2] at h
    · rw [runStage_ok tag jsonLoads llm call t w h1 h2] at h
      exact ⟨t, rfl, by rw [h2, Except.ok.inj h]⟩

lemma analyze_none (jsonLoads : JsonLoads) (text : String) :
    analyze_medical_text jsonLoads none text =
      (.error .notInitialized, { llmCalls := [], dbWrites := [] }) := rfl

lemma analyze_some (jsonLoads : JsonLoads) (llm : Llm) (text : String) :
    analyze_medical_text jsonLoads (some llm) text =
      (runStage .processingText jsonLoads llm (extractionCall text),
       { llmCalls := [extractionCall text], dbWrites := [] }) := rfl

lemma analyze_ok (jsonLoads : JsonLoads) (llm : Llm) (text t : String) (v : Json)
    (h1 : llm (extractionCall text) = .ok t) (h2 : jsonLoads t = .ok v) :
    analyze_medical_text jsonLoads (some llm) text =
      (.ok v, { llmCalls := [extractionCall text], dbWrites := [] }) := by
  rw [analyze_some, runStage_ok _ _ _ _ _ _ h1 h2]

lemma analyze_dbWrites (jsonLoads : JsonLoads) (llm? : Option Llm) (text : String) :
    (analyze_medical_text jsonLoads llm? text).2.dbWrites = [] := by
  cases llm? <;> rfl

lemma match_trials_extract_error (jsonLoads : JsonLoads) (llm : Llm)
    (text : String) (e : ApiError) (eff : Effects)
    (h : analyze_medical_text jsonLoads (some llm) text = (.error e, eff)) :
    match_trials jsonLoads (some llm) text = (.error e, eff) := by
  unfold match_trials
  rw [h]

lemma match_trials_extract_ok (jsonLoads : JsonLoads) (llm : Llm)
    (text : String) (extracted : Json) (eff : Effects)
    (h : analyze_medical_text jsonLoads (some llm) text = (.ok extracted, eff)) :
    match_trials jsonLoads (some llm) text =
      (match runStage .matchingTrials jsonLoads llm (matchCall extracted) with
       | .error e =>
           (.error e,
            { llmCalls := eff.llmCalls ++ [matchCall extracted],
              dbWrites := eff.dbWrites })
       | .ok ms =>
           (.ok (extracted, ms),
            { llmCalls := eff.llmCalls ++ [matchCall extracted],
              dbWrites := eff.dbWrites })) := by
  unfold match_trials
  rw [h]

lemma match_trials_ok (jsonLoads : JsonLoads) (llm : Llm) (text : String)
    (extracted ms : Json) (eff : Effects) (t : String)
    (hA : analyze_medical_text jsonLoads (some llm) text = (.ok extracted, eff))
    (h1 : llm (matchCall extracted) = .ok t) (h2 : jsonLoads t = .ok ms) :
    match_trials jsonLoads (some llm) text =
      (.ok (extracted, ms),
       { llmCalls := eff.llmCalls ++ [matchCall extracted],
         dbWrites := eff.dbWrites }) := by
  rw [match_trials_extract_ok _ _ _ _ _ hA, runStage_ok _ _ _ _ _ _ h1 h2]

lemma match_trials_dbWrites (jsonLoads : JsonLoads) (llm? : Option Llm)
    (text : String) : (match_trials jsonLoads llm? text).2.dbWrites = [] := by
  cases llm? with
  | none => rfl
  | some llm =>
      unfold match_trials
      rcases hA : analyze_medical_text jsonLoads (some llm) text with ⟨r, eff⟩
      have he : eff.dbWrites = [] := by
        have h := analyze_dbWrites jsonLoads (some llm) text
        rw [hA] at h
        exact h
      cases r with
      | error e => simp [match_trials, hA, he]
      | ok extracted =>
          rcases hR : runStage .matchingTrials jsonLoads llm (matchCall extracted)
            with e | ms <;> simp [match_trials, hA, hR, he]

/-! ### Claims -/

/-- C1: whenever the extraction stage of `match_trials` fails (capability
unavailable, completion call raised, or its output failed to parse),
`match_trials` surfaces exactly that extraction-stage error — which is never
the matching-stage error kind `matchingTrials`, so extraction failures stay
distinguishable from matching failures — and the matching completion call is
never issued: every completion call in the request trace is the extraction
call. -/
theorem C1_extraction_failure_skips_matching (jsonLoads : JsonLoads)
    (llm? : Option Llm) (text : String) (e : ApiError) (eff : Effects)
    (h : analyze_medical_text jsonLoads llm? text = (.error e, eff)) :
    match_trials jsonLoads llm? text = (.error e, eff)
    ∧ e.isMatchingStage = false
    ∧ ∀ c ∈ eff.llmCalls, c = extractionCall text := by
  cases llm? with
  | none =>
      rw [analyze_none] at h
      injection h with h1 h2
      injection h1 with h1
      subst h1
      subst h2
      exact ⟨rfl, rfl, by simp⟩
  | some llm =>
      have h0 := h
      rw [analyze_some] at h
      injection h with h1 h2
      obtain ⟨m, rfl⟩ := runStage_error_range _ _ _ _ _ h1
      subst h2
      refine ⟨match_trials_extract_error _ _ _ _ _ h0, rfl, ?_⟩
      intro c hc
      simpa using hc

/-- C1 witness: with a completion capability whose call raises `"boom"`,
extraction fails, `match_trials` surfaces the extraction-stage error, and the
only completion call issued is the extraction call. -/
theorem C1_witness :
    analyze_medical_text (stubLoads Json.null Json.null) (some failLlm) "pt"
      = (.error (.processingText "boom"),
         { llmCalls := [extractionCall "pt"], dbWrites := [] })
    ∧ match_trials (stubLoads Json.null Json.null) (some failLlm) "pt"
        = (.error (.processingText "boom"),
           { llmCalls := [extractionCall "pt"], dbWrites := [] })
    ∧ ApiError.isMatchingStage (.processingText "boom") = false :=
  ⟨rfl,
   (C1_extraction_failure_skips_matching (stubLoads Json.null Json.null)
     (some failLlm) "pt" (.processingText "boom")
     { llmCalls := [extractionCall "pt"], dbWrites := [] } rfl).1,
   (C1_extraction_failure_skips_matching (stubLoads Json.null Json.null)
     (some failLlm) "pt" (.processingText "boom")
     { llmCalls := [extractionCall "pt"], dbWrites := [] } rfl).2.1⟩

/-- C6: when the completion capability is not initialized (`llm` is `None`),
both `analyze_medical_text` and `match_trials` fail immediately with the
not-initialized error — a 500 response with the message
"Llama model not initialized" — and no completion call is attempted
(the call trace is empty). -/
theorem C6_not_initialized (jsonLoads : JsonLoads) (text : String) :
    analyze_medical_text jsonLoads none text
      = (.error .notInitialized, { llmCalls := [], dbWrites := [] })
    ∧ match_trials jsonLoads none text
        = (.error .notInitialized, { llmCalls := [], dbWrites := [] })
    ∧ ApiError.notInitialized.statusCode = 500
    ∧ ApiError.notInitialized.detail = "Llama model not initialized" :=
  ⟨rfl, rfl, rfl, rfl⟩

/-- C8: the Extractor builds a single prompt that embeds the raw text
verbatim between two fixed parts (the trailing part being the inline
schema template of `extractionPromptPost`), and issues exactly one
completion call with output-length cap `max_tokens = 2000` and the low
sampling temperature `0.1 < 1`. -/
theorem C8_extraction_prompt_shape (jsonLoads : JsonLoads) (llm : Llm)
    (text : String) :
    extraction_prompt text = extractionPromptPre ++ text ++ extractionPromptPost
    ∧ (analyze_medical_text jsonLoads (some llm) text).2.llmCalls
        = [{ prompt := extraction_prompt text, maxTokens := 2000,
             temperature := 1/10 }]
    ∧ ((1 : ℚ)/10) < 1 :=
  ⟨rfl, rfl, by norm_num⟩

/-- C9: a failed `analyze_medical_text` or `match_trials` call leaves no
residual state (its database-write list is empty — indeed the handlers never
write), and parsing happens only after the completion call returns
successfully: when the extraction completion call raises, the outcome of
`analyze_medical_text` does not depend on the parser at all. -/
theorem C9_no_residual_state (jsonLoads jsonLoads' : JsonLoads)
    (llm? : Option Llm) (text : String) :
    (∀ e eff, analyze_medical_text jsonLoads llm? text = (.error e, eff) →
      eff.dbWrites = [])
    ∧ (∀ e eff, match_trials jsonLoads llm? text = (.error e, eff) →
        eff.dbWrites = [])
    ∧ (∀ llm m, llm? = some llm → llm (extractionCall text) = .error m →
        analyze_medical_text jsonLoads llm? text
          = analyze_medical_text jsonLoads' llm? text) := by
  refine ⟨?_, ?_, ?_⟩
  · intro e eff h
    have h2 := analyze_dbWrites jsonLoads llm? text
    rw [h] at h2
    exact h2
  · intro e eff h
    have h2 := match_trials_dbWrites jsonLoads llm? text
    rw [h] at h2
    exact h2
  · intro llm m hs hf
    subst hs
    rw [analyze_some, analyze_some,
        runStage_llm_error _ _ _ _ _ hf, runStage_llm_error _ _ _ _ _ hf]

/-- C9 witness: with a completion capability that raises on every call, the
outcome of `analyze_medical_text` is the same under a parser that always
succeeds and a parser that always fails — parsing never ran. -/
theorem C9_witness :
    analyze_medical_text (stubLoads Json.null Json.null) (some failLlm) "pt"
      = analyze_medical_text failLoads (some failLlm) "pt" :=
  (C9_no_residual_state (stubLoads Json.null Json.null) failLoads
    (some failLlm) "pt").2.2 failLlm "boom" rfl rfl

/-- C10: whenever the completion text parses as JSON of any shape (here an
arbitrary value `v`), `analyze_medical_text` returns that parsed value
unchanged — no schema validation, key check, or repair happens between
`json.loads` and the response. -/
theorem C10_parsed_value_returned_unchanged (jsonLoads : JsonLoads)
    (llm : Llm) (text t : String) (v : Json)
    (h1 : llm (extractionCall text) = .ok t) (h2 : jsonLoads t = .ok v) :
    analyze_medical_text jsonLoads (some llm) text
      = (.ok v, { llmCalls := [extractionCall text], dbWrites := [] }) :=
  analyze_ok jsonLoads llm text t v h1 h2

/-- C10 witness: a completion text that parses to the bare number `7` — not
an object at all — is returned unchanged as the response. -/
theorem C10_witness :
    okLlm "raw" (extractionCall "note") = .ok "raw"
    ∧ numLoads "raw" = .ok (Json.num 7)
    ∧ analyze_medical_text numLoads (some (okLlm "raw")) "note"
        = (.ok (Json.num 7),
           { llmCalls := [extractionCall "note"], dbWrites := [] }) :=
  ⟨rfl, rfl,
   C10_parsed_value_returned_unchanged numLoads (okLlm "raw") "note" "raw"
     (Json.num 7) rfl rfl⟩

/-- C2 counterexample: a successful `match_trials` run in which the
completion emits the entry with score 10 before the entry with score 90;
the response carries them in exactly that order, which violates the claimed
descending-score ordering. -/
theorem C2_counterexample :
    (match_trials (stubLoads cProfile (Json.arr cTrialsOutOfOrder))
        (some stubLlm) "pt").1
      = .ok (cProfile, Json.arr cTrialsOutOfOrder)
    ∧ specSortedByScoreDesc cTrialsOutOfOrder = false :=
  ⟨rfl, rfl⟩

/-- C2 amended: no sorting is applied: the matched-trials value of a
successful `match_trials` response is exactly the value `json.loads`
produced from the second completion's text, unchanged — so the order is
whatever order the completion emitted. -/
theorem C2_amended_no_sorting (jsonLoads : JsonLoads) (llm : Llm)
    (text : String) (e m : Json) (eff : Effects)
    (h : match_trials jsonLoads (some llm) text = (.ok (e, m), eff)) :
    ∃ t, llm (matchCall e) = .ok t ∧ jsonLoads t = .ok m := by
  rcases hA : analyze_medical_text jsonLoads (some llm) text with ⟨r, effA⟩
  cases r with
  | error er =>
      rw [match_trials_extract_error _ _ _ _ _ hA] at h
      exact absurd h (by simp)
  | ok extracted =>
      rw [match_trials_extract_ok _ _ _ _ _ hA] at h
      rcases hR : runStage .matchingTrials jsonLoads llm (matchCall extracted)
        with er | ms
      · rw [hR] at h
        exact absurd h (by simp)
      · rw [hR] at h
        injection h with h1 h2
        injection h1 with h1
        have he : extracted = e := congrArg Prod.fst h1
        have hm : ms = m := congrArg Prod.snd h1
        rw [he, hm] at hR
        exact runStage_eq_ok _ _ _ _ _ hR

/-- C2 witness: the out-of-order run of the counterexample satisfies the
amended claim — the response equals the parsed second completion output. -/
theorem C2_witness :
    match_trials (stubLoads cProfile (Json.arr cTrialsOutOfOrder))
        (some stubLlm) "pt"
      = (.ok (cProfile, Json.arr cTrialsOutOfOrder),
         { llmCalls := [extractionCall "pt", matchCall cProfile],
           dbWrites := [] })
    ∧ ∃ t, stubLlm (matchCall cProfile) = .ok t
        ∧ stubLoads cProfile (Json.arr cTrialsOutOfOrder) t
            = .ok (Json.arr cTrialsOutOfOrder) :=
  ⟨rfl,
   C2_amended_no_sorting (stubLoads cProfile (Json.arr cTrialsOutOfOrder))
     stubLlm "pt" cProfile (Json.arr cTrialsOutOfOrder)
     { llmCalls := [extractionCall "pt", matchCall cProfile], dbWrites := [] }
     rfl⟩

/-- C3 counterexample: a successful `match_trials` run whose completion
emits a score of 150; the response carries the raw 150, outside [0,100] and
neither clamped nor flagged. -/
theorem C3_counterexample :
    (match_trials (stubLoads cProfile (Json.arr cBadScoreTrials))
        (some stubLlm) "pt").1
      = .ok (cProfile, Json.arr cBadScoreTrials)
    ∧ specAllScoresInRange cBadScoreTrials = false :=
  ⟨rfl, rfl⟩

/-- C3 amended: scores are passed through raw: even when the parsed
matched-trials value contains scores outside [0,100], `match_trials` returns
it unchanged — no clamping or flagging is applied. -/
theorem C3_amended_raw_scores (jsonLoads : JsonLoads) (llm : Llm)
    (text t : String) (e m : Json) (effA : Effects)
    (hA : analyze_medical_text jsonLoads (some llm) text = (.ok e, effA))
    (h1 : llm (matchCall e) = .ok t) (h2 : jsonLoads t = .ok m)
    (hbad : specAllScoresInRange (jsonElems m) = false) :
    (match_trials jsonLoads (some llm) text).1 = .ok (e, m) := by
  rw [match_trials_ok jsonLoads llm text e m effA t hA h1 h2]

/-- C3 witness: the score-150 run of the counterexample satisfies the
amended claim — the out-of-range score is returned raw. -/
theorem C3_witness :
    specAllScoresInRange (jsonElems (Json.arr cBadScoreTrials)) = false
    ∧ (match_trials (stubLoads cProfile (Json.arr cBadScoreTrials))
          (some stubLlm) "pt").1
        = .ok (cProfile, Json.arr cBadScoreTrials) :=
  ⟨rfl,
   C3_amended_raw_scores (stubLoads cProfile (Json.arr cBadScoreTrials))
     stubLlm "pt" "M" cProfile (Json.arr cBadScoreTrials)
     { llmCalls := [extractionCall "pt"], dbWrites := [] }
     rfl rfl rfl rfl⟩

/-- C4 counterexample: a completion text parsing to an object with only a
`diagnosis` section (itself missing every declared key) is returned as the
successful response — a partially-shaped structure, against the claim. -/
theorem C4_counterexample :
    (analyze_medical_text partialLoads (some (okLlm "raw")) "note").1
      = .ok partialProfile
    ∧ specWellShapedProfile partialProfile = false :=
  ⟨rfl, rfl⟩

/-- C4 amended: `analyze_medical_text` applies no shape validation: whatever
JSON value the completion text parses to is returned as-is, including values
that are not well-shaped profiles (missing sections or keys). -/
theorem C4_amended_no_shape_validation (jsonLoads : JsonLoads) (llm : Llm)
    (text t : String) (v : Json)
    (h1 : llm (extractionCall text) = .ok t) (h2 : jsonLoads t = .ok v)
    (hbad : specWellShapedProfile v = false) :
    (analyze_medical_text jsonLoads (some llm) text).1 = .ok v := by
  rw [analyze_ok jsonLoads llm text t v h1 h2]

/-- C4 witness: the partially-shaped profile of the counterexample is
returned as-is by `analyze_medical_text`. -/
theorem C4_witness :
    okLlm "raw" (extractionCall "note") = .ok "raw"
    ∧ partialLoads "raw" = .ok partialProfile
    ∧ specWellShapedProfile partialProfile = false
    ∧ (analyze_medical_text partialLoads (some (okLlm "raw")) "note").1
        = .ok partialProfile :=
  ⟨rfl, rfl, rfl,
   C4_amended_no_shape_validation partialLoads (okLlm "raw") "note" "raw"
     partialProfile rfl rfl rfl⟩

/-- C5 counterexample: `match_trials` accepts no trial-sequence input at all
(its only input is the request text), so this call is in particular one with
an empty trial sequence; yet it succeeds with one matched trial, not with an
empty result sequence. -/
theorem C5_counterexample :
    (match_trials (stubLoads cProfile (Json.arr cOneTrial))
        (some stubLlm) "pt").1
      = .ok (cProfile, Json.arr cOneTrial)
    ∧ cOneTrial.length = 1 :=
  ⟨rfl, rfl⟩

/-- C5 amended: the match operation takes no trial catalog as input; its
result list is exactly the parsed completion output, so it is empty
precisely when the completion emits an empty list — an empty completion list
yields an empty result sequence, not an error. -/
theorem C5_amended_empty_from_completion (jsonLoads : JsonLoads) (llm : Llm)
    (text t : String) (e : Json) (effA : Effects)
    (hA : analyze_medical_text jsonLoads (some llm) text = (.ok e, effA))
    (h1 : llm (matchCall e) = .ok t) (h2 : jsonLoads t = .ok (Json.arr [])) :
    (match_trials jsonLoads (some llm) text).1 = .ok (e, Json.arr []) := by
  rw [match_trials_ok jsonLoads llm text e (Json.arr []) effA t hA h1 h2]

/-- C5 witness: a completion emitting the empty list yields a successful
empty result sequence. -/
theorem C5_witness :
    stubLoads cProfile (Json.arr []) "M" = .ok (Json.arr [])
    ∧ (match_trials (stubLoads cProfile (Json.arr []))
          (some stubLlm) "pt").1
        = .ok (cProfile, Json.arr []) :=
  ⟨rfl,
   C5_amended_empty_from_completion (stubLoads cProfile (Json.arr []))
     stubLlm "pt" "M" cProfile
     { llmCalls := [extractionCall "pt"], dbWrites := [] }
     rfl rfl rfl⟩

/-- C7 counterexample: a fully successful matching request returning a
non-empty match list performs zero database writes — no TrialMatch row is
ever written before or upon returning. -/
theorem C7_counterexample :
    (match_trials (stubLoads cProfile (Json.arr cOneTrial))
        (some stubLlm) "pt")
      = (.ok (cProfile, Json.arr cOneTrial),
         { llmCalls := [extractionCall "pt", matchCall cProfile],
           dbWrites := [] })
    ∧ cOneTrial.length = 1 :=
  ⟨rfl, rfl⟩

/-- C7 amended: match results are returned but never persisted: on every
code path of both handlers, the set of TrialMatch rows written to the
persistence store is empty (`main.py` performs no database operation; the
`trial_matches` table of `database.py` is unused by the request handlers). -/
theorem C7_amended_no_persistence (jsonLoads : JsonLoads) (llm? : Option Llm)
    (text : String) :
    (match_trials jsonLoads llm? text).2.dbWrites = []
    ∧ (analyze_medical_text jsonLoads llm? text).2.dbWrites = [] :=
  ⟨match_trials_dbWrites jsonLoads llm? text,
   analyze_dbWrites jsonLoads llm? text⟩

end MedMatch
